import Mathlib

/-!
Verification development for the aircraft data worker (`data-worker.js`).

The worker's numeric values are JavaScript doubles.  We idealise them as
`ℝ` extended with a `nan` element (`JsNum`): arithmetic is exact real
arithmetic, `nan` is absorbing, and every comparison involving `nan` is
false, which matches the IEEE semantics the source relies on.  Infinite
values never arise on the code paths under study and are outside the
modelled fragment (the only divisions are by the non-zero literals 2 and
180).  JavaScript string-or-undefined fields are `Option String`, with
JavaScript truthiness (`none` and `some ""` are falsy).

`Map` objects are modelled as insertion-ordered association lists, which
is observable through `Array.from(map.values())` in `fuseAircraftData`.
-/

noncomputable section

/-- A JavaScript number: either NaN or a (finite) real. -/
inductive JsNum where
  | nan : JsNum
  | num : ℝ → JsNum

open JsNum

/-- JavaScript `+` on numbers: NaN is absorbing. -/
def jadd : JsNum → JsNum → JsNum
  | num x, num y => num (x + y)
  | _, _ => nan

/-- JavaScript `-` on numbers: NaN is absorbing. -/
def jsub : JsNum → JsNum → JsNum
  | num x, num y => num (x - y)
  | _, _ => nan

/-- JavaScript `*` on numbers: NaN is absorbing. -/
def jmul : JsNum → JsNum → JsNum
  | num x, num y => num (x * y)
  | _, _ => nan

/-- JavaScript `/` on numbers, restricted to the modelled fragment:
NaN is absorbing and a zero divisor (which would produce an infinity,
outside the model) is mapped to NaN.  The source only ever divides by
the literals 2 and 180. -/
def jdiv : JsNum → JsNum → JsNum
  | num x, num y => if y = 0 then nan else num (x / y)
  | _, _ => nan

/-- JavaScript `Math.min`: NaN if either argument is NaN. -/
def jmin : JsNum → JsNum → JsNum
  | num x, num y => num (min x y)
  | _, _ => nan

/-- JavaScript `<` on numbers: false whenever either side is NaN. -/
def jlt : JsNum → JsNum → Prop
  | num x, num y => x < y
  | _, _ => False

/-- JavaScript `>` on numbers: false whenever either side is NaN. -/
def jgt : JsNum → JsNum → Prop
  | num x, num y => y < x
  | _, _ => False

/-- JavaScript `===` on numbers: false whenever either side is NaN. -/
def jeqNum : JsNum → JsNum → Prop
  | num x, num y => x = y
  | _, _ => False

instance : ∀ a b : JsNum, Decidable (jlt a b)
  | num x, num y => inferInstanceAs (Decidable (x < y))
  | nan, num _ => isFalse (fun h => h)
  | nan, nan => isFalse (fun h => h)
  | num _, nan => isFalse (fun h => h)

instance : ∀ a b : JsNum, Decidable (jgt a b)
  | num x, num y => inferInstanceAs (Decidable (y < x))
  | nan, num _ => isFalse (fun h => h)
  | nan, nan => isFalse (fun h => h)
  | num _, nan => isFalse (fun h => h)

instance : ∀ a b : JsNum, Decidable (jeqNum a b)
  | num x, num y => inferInstanceAs (Decidable (x = y))
  | nan, num _ => isFalse (fun h => h)
  | nan, nan => isFalse (fun h => h)
  | num _, nan => isFalse (fun h => h)

@[simp] lemma jadd_num_num (x y : ℝ) : jadd (num x) (num y) = num (x + y) := rfl
@[simp] lemma jsub_num_num (x y : ℝ) : jsub (num x) (num y) = num (x - y) := rfl
@[simp] lemma jmul_num_num (x y : ℝ) : jmul (num x) (num y) = num (x * y) := rfl
@[simp] lemma jmin_num_num (x y : ℝ) : jmin (num x) (num y) = num (min x y) := rfl
@[simp] lemma jdiv_num_num (x y : ℝ) (h : y ≠ 0) :
    jdiv (num x) (num y) = num (x / y) := by simp [jdiv, h]
@[simp] lemma jadd_nan_left (b : JsNum) : jadd nan b = nan := rfl
@[simp] lemma jsub_nan_left (b : JsNum) : jsub nan b = nan := rfl
@[simp] lemma jmul_nan_left (b : JsNum) : jmul nan b = nan := rfl
@[simp] lemma jdiv_nan_left (b : JsNum) : jdiv nan b = nan := rfl
@[simp] lemma jadd_nan_right (a : JsNum) : jadd a nan = nan := by cases a <;> rfl
@[simp] lemma jsub_nan_right (a : JsNum) : jsub a nan = nan := by cases a <;> rfl
@[simp] lemma jmul_nan_right (a : JsNum) : jmul a nan = nan := by cases a <;> rfl
@[simp] lemma jdiv_nan_right (a : JsNum) : jdiv a nan = nan := by cases a <;> rfl
@[simp] lemma jlt_num_num (x y : ℝ) : jlt (num x) (num y) ↔ x < y := Iff.rfl
@[simp] lemma jgt_num_num (x y : ℝ) : jgt (num x) (num y) ↔ y < x := Iff.rfl
@[simp] lemma jeqNum_num_num (x y : ℝ) : jeqNum (num x) (num y) ↔ x = y := Iff.rfl
@[simp] lemma jlt_nan_left (b : JsNum) : ¬ jlt nan b := by cases b <;> exact fun h => h
@[simp] lemma jlt_nan_right (a : JsNum) : ¬ jlt a nan := by cases a <;> exact fun h => h
@[simp] lemma jgt_nan_left (b : JsNum) : ¬ jgt nan b := by cases b <;> exact fun h => h
@[simp] lemma jgt_nan_right (a : JsNum) : ¬ jgt a nan := by cases a <;> exact fun h => h

lemma jgt_irrefl (a : JsNum) : ¬ jgt a a := by
  cases a with
  | nan => exact fun h => h
  | num x => exact lt_irrefl x

/-- A JavaScript string-or-undefined value. -/
abbrev JsStr := Option String

/-- JavaScript truthiness of a string value: `undefined` and `""` are falsy. -/
def truthy : JsStr → Bool
  | none => false
  | some s => s ≠ ""

/-- The identification expression `aircraft.icao24 || aircraft.callsign`
used throughout the worker. -/
def jsKey (icao24 callsign : JsStr) : JsStr :=
  if truthy icao24 then icao24 else callsign

@[simp] lemma truthy_none : truthy none = false := rfl
@[simp] lemma truthy_some (s : String) : truthy (some s) = (s ≠ "" : Bool) := rfl

/-- An aircraft record as found in a source's `aircraft` array.  A numeric
field that is absent or non-numeric is modelled as `nan`, a string field
that is absent as `none`. -/
structure RawAircraft where
  icao24 : JsStr
  callsign : JsStr
  latitude : JsNum
  longitude : JsNum
  altitude : JsNum
  velocity : JsNum
  heading : JsNum
  origin : JsStr
  destination : JsStr
  timestamp : JsNum

/-- A report after `processAircraftData` has tagged it with its source name
and static priority (`{...aircraft, source, priority}`). -/
structure TaggedAircraft where
  icao24 : JsStr
  callsign : JsStr
  latitude : JsNum
  longitude : JsNum
  altitude : JsNum
  velocity : JsNum
  heading : JsNum
  origin : JsStr
  destination : JsStr
  timestamp : JsNum
  source : String
  priority : JsNum

/-- `{...aircraft, source: src, priority: num p}`. -/
def tagAircraft (a : RawAircraft) (src : String) (p : ℝ) : TaggedAircraft :=
  { icao24 := a.icao24, callsign := a.callsign, latitude := a.latitude,
    longitude := a.longitude, altitude := a.altitude, velocity := a.velocity,
    heading := a.heading, origin := a.origin, destination := a.destination,
    timestamp := a.timestamp, source := src, priority := num p }

/-- The fused record built by `fuseAircraftData`. -/
structure FusedEntity where
  icao24 : JsStr
  callsign : JsStr
  latitude : JsNum
  longitude : JsNum
  altitude : JsNum
  velocity : JsNum
  heading : JsNum
  origin : JsStr
  destination : JsStr
  source : String
  priority : JsNum
  timestamp : JsNum
  confidence : JsNum

/-- A JavaScript `Map` with string keys, as an insertion-ordered
association list. -/
abbrev EntityMap := List (String × FusedEntity)

/-- `map.get(k)` / `map.has(k)`. -/
def mapLookup : EntityMap → String → Option FusedEntity
  | [], _ => none
  | (k', v) :: rest, k => if k' = k then some v else mapLookup rest k

/-- `map.set(k, v)`: update in place (keeping insertion position) when the
key is present, append otherwise.  Mutating an object obtained from
`map.get(k)` has the same effect. -/
def mapSet : EntityMap → String → FusedEntity → EntityMap
  | [], k, v => [(k, v)]
  | (k', v') :: rest, k, v =>
      if k' = k then (k, v) :: rest else (k', v') :: mapSet rest k v

/-- The entity seeded from the first report with a given key
(`fusedMap.set(key, {...})`, lines 110–124 of the source). -/
def seedEntity (a : TaggedAircraft) : FusedEntity :=
  { icao24 := a.icao24, callsign := a.callsign, latitude := a.latitude,
    longitude := a.longitude, altitude := a.altitude, velocity := a.velocity,
    heading := a.heading, origin := a.origin, destination := a.destination,
    source := a.source, priority := a.priority, timestamp := a.timestamp,
    confidence := num 1 }

/-- The merge step of `fuseAircraftData` (lines 126–148 of the source) for a
subsequent report with an already-present key.  `Object.assign(existing,
aircraft)` replaces every field the report carries — including
`timestamp` — before `existing.confidence = 1.0`; the trailing
"update timestamp to most recent" comparison therefore sees the already
overwritten value in the override branch. -/
def mergeEntity (existing : FusedEntity) (a : TaggedAircraft) : FusedEntity :=
  let e1 : FusedEntity :=
    if jgt a.priority existing.priority then
      { icao24 := a.icao24, callsign := a.callsign, latitude := a.latitude,
        longitude := a.longitude, altitude := a.altitude,
        velocity := a.velocity, heading := a.heading, origin := a.origin,
        destination := a.destination, source := a.source,
        priority := a.priority, timestamp := a.timestamp,
        confidence := num 1 }
    else if jeqNum a.priority existing.priority then
      { existing with
        latitude := jdiv (jadd existing.latitude a.latitude) (num 2),
        longitude := jdiv (jadd existing.longitude a.longitude) (num 2),
        altitude := jdiv (jadd existing.altitude a.altitude) (num 2),
        velocity := jdiv (jadd existing.velocity a.velocity) (num 2),
        heading := jdiv (jadd existing.heading a.heading) (num 2),
        confidence := jmin (num 1) (jadd existing.confidence (num 0.1)) }
    else existing
  if jgt a.timestamp e1.timestamp then { e1 with timestamp := a.timestamp }
  else e1

/-- One iteration of the `forEach` in `fuseAircraftData`. -/
def fuseStep (m : EntityMap) (a : TaggedAircraft) : EntityMap :=
  match jsKey a.icao24 a.callsign with
  | none => m
  | some s =>
      if s = "" then m
      else
        match mapLookup m s with
        | none => mapSet m s (seedEntity a)
        | some existing => mapSet m s (mergeEntity existing a)

/-- `fuseAircraftData` (lines 102–152 of the source). -/
def fuseAircraftData (aircraft : List TaggedAircraft) : List FusedEntity :=
  (aircraft.foldl fuseStep []).map Prod.snd

/-- `Math.sin` lifted to `JsNum`. -/
def jsSin : JsNum → JsNum
  | num x => num (Real.sin x)
  | nan => nan

/-- `Math.cos` lifted to `JsNum`. -/
def jsCos : JsNum → JsNum
  | num x => num (Real.cos x)
  | nan => nan

/-- `Math.sqrt` lifted to `JsNum`: NaN on negative arguments. -/
def jsSqrt : JsNum → JsNum
  | num x => if x < 0 then nan else num (Real.sqrt x)
  | nan => nan

/-- `Math.atan2` on reals (signed zeros are outside the model). -/
def atan2R (y x : ℝ) : ℝ :=
  if 0 < x then Real.arctan (y / x)
  else if x < 0 then
    (if 0 ≤ y then Real.arctan (y / x) + Real.pi
     else Real.arctan (y / x) - Real.pi)
  else
    (if 0 < y then Real.pi / 2 else if y < 0 then -(Real.pi / 2) else 0)

/-- `Math.atan2` lifted to `JsNum`. -/
def jsAtan2 : JsNum → JsNum → JsNum
  | num y, num x => num (atan2R y x)
  | _, _ => nan

/-- `calculateDistance` (lines 182–191 of the source): haversine distance in
kilometres on a sphere of radius 6371. -/
def calculateDistance (lat1 lon1 lat2 lon2 : JsNum) : JsNum :=
  let dLat := jdiv (jmul (jsub lat2 lat1) (num Real.pi)) (num 180)
  let dLon := jdiv (jmul (jsub lon2 lon1) (num Real.pi)) (num 180)
  let a := jadd
    (jmul (jsSin (jdiv dLat (num 2))) (jsSin (jdiv dLat (num 2))))
    (jmul (jmul (jsCos (jdiv (jmul lat1 (num Real.pi)) (num 180)))
                (jsCos (jdiv (jmul lat2 (num Real.pi)) (num 180))))
          (jmul (jsSin (jdiv dLon (num 2))) (jsSin (jdiv dLon (num 2)))))
  let c := jmul (num 2) (jsAtan2 (jsSqrt a) (jsSqrt (jsub (num 1) a)))
  jmul (num 6371) c

/-- One iteration of the `forEach` in `removeDuplicates`: the accumulator
pairs `uniqueAircraft` with `processedKeys`. -/
def dedupStep (acc : List FusedEntity × List String) (a : FusedEntity) :
    List FusedEntity × List String :=
  match jsKey a.icao24 a.callsign with
  | none => acc
  | some s =>
      if s = "" then acc
      else if s ∈ acc.2 then acc
      else if ∃ e ∈ acc.1,
          jlt (calculateDistance e.latitude e.longitude a.latitude a.longitude)
            (num 1) then acc
      else (acc.1 ++ [a], acc.2 ++ [s])

/-- `removeDuplicates` (lines 155–179 of the source). -/
def removeDuplicates (aircraft : List FusedEntity) : List FusedEntity :=
  (aircraft.foldl dedupStep ([], [])).1

/-- The deduplication algorithm as the spec words it (§4.3): iterate
candidates in input order; skip a candidate whose key has already been
accepted; otherwise discard it if its haversine distance to some
already-accepted entity is strictly below 1.0 km (earliest-accepted
wins, no merging); otherwise accept it.  Stated for comparison with
`removeDuplicates`, which is translated from the source. -/
def dedupeSpecStep (acc : List FusedEntity) (cand : FusedEntity) :
    List FusedEntity :=
  if ∃ e ∈ acc, jsKey e.icao24 e.callsign
      = jsKey cand.icao24 cand.callsign then acc
  else if ∃ e ∈ acc,
      jlt (calculateDistance e.latitude e.longitude cand.latitude
        cand.longitude) (num 1) then acc
  else acc ++ [cand]

/-- The spec's dedup contract (§4.3) as a whole: fold the decision
procedure over the candidates in input order, starting from no accepted
entities. -/
def dedupeSpec (entities : List FusedEntity) : List FusedEntity :=
  entities.foldl dedupeSpecStep []

/-- The sweep phase of `updateCache` (lines 199–203): delete every entry
with `now - value.timestamp > 30000`. -/
def sweepCache (now : ℝ) : EntityMap → EntityMap
  | [] => []
  | kv :: rest =>
      if jgt (jsub (num now) kv.2.timestamp) (num 30000) then
        sweepCache now rest
      else kv :: sweepCache now rest

/-- `updateCache` (lines 194–212 of the source): sweep expired entries,
then upsert each keyed entity of the current cycle. -/
def updateCache (now : ℝ) (aircraft : List FusedEntity) (cache : EntityMap) :
    EntityMap :=
  aircraft.foldl
    (fun c a =>
      match jsKey a.icao24 a.callsign with
      | none => c
      | some s => if s = "" then c else mapSet c s a)
    (sweepCache now cache)

/-- The state of one source's slot in a snapshot.  `malformed` stands for a
truthy `aircraft` field that is not an array, on which `forEach` throws a
`TypeError`; this is the shape failure the worker's `try`/`catch`
converts into an error message. -/
inductive SourceSlot where
  | absent : SourceSlot
  | noList : SourceSlot
  | list : List RawAircraft → SourceSlot
  | malformed : SourceSlot

/-- A multi-source snapshot, as received by the `processData` message. -/
structure Snapshot where
  localData : SourceSlot
  openSky : SourceSlot
  flightradar : SourceSlot

/-- Flatten one source's slot, tagging each report
(`if (data.src && data.src.aircraft) data.src.aircraft.forEach(...)`). -/
def flattenSlot (slot : SourceSlot) (src : String) (p : ℝ) :
    Except String (List TaggedAircraft)  :=
  match slot with
  | .absent => .ok []
  | .noList => .ok []
  | .list l => .ok (l.map (fun a => tagAircraft a src p))
  | .malformed => .error "aircraft.forEach is not a function"

/-- The flatten phase of `processAircraftData` (lines 27–60): local data at
priority 3, OpenSky at 2, Flightradar24 at 1, in that order. -/
def flattenSnapshot (data : Snapshot) : Except String (List TaggedAircraft) := do
  let l ← flattenSlot data.localData "local" 3
  let o ← flattenSlot data.openSky "opensky" 2
  let f ← flattenSlot data.flightradar "flightradar24" 1
  return l ++ o ++ f

/-- The observable outcome of one processing cycle: either the posted
`aircraftData` list together with the posted `processedCount` and
`cacheSize` stats, or the message of the caught error. -/
inductive ProcOutcome where
  | ok : List FusedEntity → ℕ → ℕ → ProcOutcome
  | error : String → ProcOutcome

/-- `processAircraftData` (lines 22–99 of the source): flatten, fuse,
dedup, update the cache, report.  The cache is passed and returned
explicitly; `Date.now()` is the parameter `now`.  A failure is caught
before `updateCache` runs, so the incoming cache is returned unchanged. -/
def processAircraftData (now : ℝ) (data : Snapshot) (cache : EntityMap) :
    ProcOutcome × EntityMap :=
  match flattenSnapshot data with
  | .error e => (.error e, cache)
  | .ok allAircraft =>
      let fused := fuseAircraftData allAircraft
      let cleaned := removeDuplicates fused
      let cache' := updateCache now cleaned cache
      (.ok cleaned cleaned.length cache'.length, cache')

/-! ### Concrete records used to instantiate the theorems -/

/-- A typical tagged report. -/
def baseReport : TaggedAircraft :=
  { icao24 := some "AAA", callsign := none, latitude := num 10,
    longitude := num 20, altitude := num 1000, velocity := num 100,
    heading := num 90, origin := none, destination := none,
    timestamp := num 0, source := "local", priority := num 3 }

/-- A priority-1 report observed at time 100. -/
def lowReport : TaggedAircraft :=
  { baseReport with
    latitude := num 10, longitude := num 20,
    timestamp := num 100, source := "flightradar24", priority := num 1 }

/-- A priority-3 report for the same key, observed earlier, at time 50. -/
def highReport : TaggedAircraft :=
  { baseReport with
    latitude := num 11, longitude := num 21,
    timestamp := num 50, source := "local", priority := num 3 }

/-- A report with no `icao24` and an empty-string call sign. -/
def noKeyReport : TaggedAircraft :=
  { baseReport with
    icao24 := none, callsign := some "" }

/-- Priority-3 report for the override example. -/
def ovHigh : TaggedAircraft :=
  { baseReport with
    latitude := num 31, longitude := num 41,
    altitude := num 2000, heading := num 180, priority := num 3 }

/-- Priority-1 report for the override example. -/
def ovLow : TaggedAircraft :=
  { baseReport with
    latitude := num 32, longitude := num 42,
    altitude := num 3000, heading := num 270,
    source := "flightradar24", priority := num 1 }

/-- First priority-2 report of the averaging example, at (10, 20). -/
def avgA : TaggedAircraft :=
  { baseReport with
    source := "opensky", priority := num 2 }

/-- Second priority-2 report of the averaging example, at (10, 20.2). -/
def avgB : TaggedAircraft :=
  { baseReport with
    longitude := num 20.2, source := "opensky",
    priority := num 2 }

/-- A typical fused entity. -/
def baseEntity : FusedEntity :=
  { icao24 := some "AAA", callsign := none, latitude := num 10,
    longitude := num 20, altitude := num 1000, velocity := num 100,
    heading := num 90, origin := none, destination := none,
    source := "local", priority := num 3, timestamp := num 0,
    confidence := num 1 }

/-- An entity 0.0001 degrees of latitude north of `baseEntity`, under a
different key. -/
def nearEntity : FusedEntity :=
  { baseEntity with
    icao24 := some "BBB", latitude := num 10.0001 }

/-- An entity 0.018 degrees of latitude (about 2 km) north of
`baseEntity`, under a different key. -/
def farEntity : FusedEntity :=
  { baseEntity with
    icao24 := some "DDD", latitude := num 10.018 }

/-- An entity whose latitude is NaN. -/
def nanEntity : FusedEntity :=
  { baseEntity with
    icao24 := some "NNN", latitude := nan }

/-- An entity with no `icao24` and an empty-string call sign. -/
def noKeyEntity : FusedEntity :=
  { baseEntity with
    icao24 := none, callsign := some "" }

/-- A cache entry last observed at time 69000 (31000 ms before 100000). -/
def oldEntity : FusedEntity :=
  { baseEntity with
    icao24 := some "OLD", timestamp := num 69000 }

/-- A cache entry last observed at time 71000 (29000 ms before 100000). -/
def freshEntity : FusedEntity :=
  { baseEntity with
    icao24 := some "FRESH", timestamp := num 71000 }

/-- A batch entity with key `"NEW"`, observed at time 100000. -/
def newEntity : FusedEntity :=
  { baseEntity with
    icao24 := some "NEW", timestamp := num 100000 }

/-- A cache holding `oldEntity` and `freshEntity`. -/
def demoCache : EntityMap := [("OLD", oldEntity), ("FRESH", freshEntity)]

/-- A snapshot whose local slot has a truthy, non-array `aircraft` field. -/
def badSnapshot : Snapshot :=
  { localData := .malformed, openSky := .absent, flightradar := .absent }

/-- A snapshot with no source present / an empty list. -/
def emptySnapshot : Snapshot :=
  { localData := .absent, openSky := .noList, flightradar := .list [] }

/-! ### Branch lemmas for the merge step -/

/-- In the override branch, `Object.assign` has already copied the incoming
timestamp, so the trailing timestamp comparison is against itself and the
merged record is exactly the incoming report's data with confidence 1. -/
lemma mergeEntity_override (existing : FusedEntity) (a : TaggedAircraft)
    (h : jgt a.priority existing.priority) :
    mergeEntity existing a =
      { icao24 := a.icao24, callsign := a.callsign, latitude := a.latitude,
        longitude := a.longitude, altitude := a.altitude,
        velocity := a.velocity, heading := a.heading, origin := a.origin,
        destination := a.destination, source := a.source,
        priority := a.priority, timestamp := a.timestamp,
        confidence := num 1 } := by
  simp only [mergeEntity]
  rw [if_pos h]
  exact if_neg (jgt_irrefl a.timestamp)

lemma mergeEntity_average (existing : FusedEntity) (a : TaggedAircraft)
    (h1 : ¬ jgt a.priority existing.priority)
    (h2 : jeqNum a.priority existing.priority) :
    mergeEntity existing a =
      (if jgt a.timestamp existing.timestamp then
        { existing with
          latitude := jdiv (jadd existing.latitude a.latitude) (num 2),
          longitude := jdiv (jadd existing.longitude a.longitude) (num 2),
          altitude := jdiv (jadd existing.altitude a.altitude) (num 2),
          velocity := jdiv (jadd existing.velocity a.velocity) (num 2),
          heading := jdiv (jadd existing.heading a.heading) (num 2),
          confidence := jmin (num 1) (jadd existing.confidence (num 0.1)),
          timestamp := a.timestamp }
      else
        { existing with
          latitude := jdiv (jadd existing.latitude a.latitude) (num 2),
          longitude := jdiv (jadd existing.longitude a.longitude) (num 2),
          altitude := jdiv (jadd existing.altitude a.altitude) (num 2),
          velocity := jdiv (jadd existing.velocity a.velocity) (num 2),
          heading := jdiv (jadd existing.heading a.heading) (num 2),
          confidence := jmin (num 1) (jadd existing.confidence (num 0.1)) }) := by
  simp only [mergeEntity]
  rw [if_neg h1, if_pos h2]

lemma mergeEntity_ignore (existing : FusedEntity) (a : TaggedAircraft)
    (h1 : ¬ jgt a.priority existing.priority)
    (h2 : ¬ jeqNum a.priority existing.priority) :
    mergeEntity existing a =
      (if jgt a.timestamp existing.timestamp then
        { existing with timestamp := a.timestamp }
      else existing) := by
  simp only [mergeEntity]
  rw [if_neg h1, if_neg h2]

/-- The merged confidence is 1 whenever the existing confidence is 1:
override resets it, corroboration computes `min(1, 1 + 0.1) = 1`, and the
ignore branch leaves it alone. -/
lemma mergeEntity_confidence (existing : FusedEntity) (a : TaggedAircraft)
    (h : existing.confidence = num 1) :
    (mergeEntity existing a).confidence = num 1 := by
  by_cases hg : jgt a.priority existing.priority
  · rw [mergeEntity_override existing a hg]
  · by_cases he : jeqNum a.priority existing.priority
    · rw [mergeEntity_average existing a hg he]
      have : jmin (num 1) (jadd existing.confidence (num 0.1)) = num 1 := by
        rw [h]
        simp only [jadd_num_num, jmin_num_num]
        norm_num
      split <;> simpa using this
    · rw [mergeEntity_ignore existing a hg he]
      split <;> simpa using h

/-! ### Map lemmas -/

lemma mapLookup_mapSet_self (m : EntityMap) (k : String) (v : FusedEntity) :
    mapLookup (mapSet m k v) k = some v := by
  induction m with
  | nil => simp [mapSet, mapLookup]
  | cons kv rest ih =>
      by_cases h : kv.1 = k
      · simp [mapSet, mapLookup, h]
      · simp [mapSet, mapLookup, h, ih]

lemma mapLookup_mapSet_ne (m : EntityMap) (k k' : String) (v : FusedEntity)
    (h : k ≠ k') :
    mapLookup (mapSet m k v) k' = mapLookup m k' := by
  induction m with
  | nil => simp [mapSet, mapLookup, h]
  | cons kv rest ih =>
      by_cases hk : kv.1 = k
      · simp [mapSet, mapLookup, hk, h]
      · simp only [mapSet, hk, if_false]
        by_cases hk' : kv.1 = k'
        · simp [mapLookup, hk']
        · simp [mapLookup, hk', ih]

lemma mapSet_forall_values (P : FusedEntity → Prop) (m : EntityMap)
    (k : String) (v : FusedEntity)
    (hm : ∀ kv ∈ m, P kv.2) (hv : P v) :
    ∀ kv ∈ mapSet m k v, P kv.2 := by
  induction m with
  | nil =>
      intro kv hkv
      simp only [mapSet, List.mem_singleton] at hkv
      subst hkv; exact hv
  | cons kv0 rest ih =>
      intro kv hkv
      by_cases h : kv0.1 = k
      · simp only [mapSet, h, if_true, List.mem_cons] at hkv
        rcases hkv with h1 | h1
        · subst h1; exact hv
        · exact hm kv (List.mem_cons_of_mem _ h1)
      · simp only [mapSet, h, if_false, List.mem_cons] at hkv
        rcases hkv with h1 | h1
        · subst h1; exact hm kv0 (List.mem_cons_self _ _)
        · exact ih (fun x hx => hm x (List.mem_cons_of_mem _ hx)) kv h1

/-! ### The confidence invariant (C9) -/

lemma fuseStep_confidence (m : EntityMap) (a : TaggedAircraft)
    (hm : ∀ kv ∈ m, kv.2.confidence = num 1) :
    ∀ kv ∈ fuseStep m a, kv.2.confidence = num 1 := by
  unfold fuseStep
  cases hkey : jsKey a.icao24 a.callsign with
  | none => exact hm
  | some s =>
      by_cases hs : s = ""
      · simpa [hs] using hm
      · simp only [hs, if_false]
        cases hlook : mapLookup m s with
        | none =>
            exact mapSet_forall_values (fun e => e.confidence = num 1) m s
              (seedEntity a) hm rfl
        | some existing =>
            refine mapSet_forall_values (fun e => e.confidence = num 1) m s
              (mergeEntity existing a) hm ?_
            refine mergeEntity_confidence existing a ?_
            have : ∀ m' : EntityMap, mapLookup m' s = some existing →
                (∀ kv ∈ m', kv.2.confidence = num 1) →
                existing.confidence = num 1 := by
              intro m' hl hall
              induction m' with
              | nil => simp [mapLookup] at hl
              | cons kv rest ih =>
                  by_cases hk : kv.1 = s
                  · simp only [mapLookup, hk, if_true] at hl
                    have := hall kv (List.mem_cons_self _ _)
                    rw [← Option.some.inj hl]
                    exact this
                  · simp only [mapLookup, hk, if_false] at hl
                    exact ih hl (fun x hx => hall x (List.mem_cons_of_mem _ hx))
            exact this m hlook hm

lemma fuse_fold_confidence (l : List TaggedAircraft) (m : EntityMap)
    (hm : ∀ kv ∈ m, kv.2.confidence = num 1) :
    ∀ kv ∈ l.foldl fuseStep m, kv.2.confidence = num 1 := by
  induction l generalizing m with
  | nil => exact hm
  | cons a rest ih =>
      exact ih (fuseStep m a) (fuseStep_confidence m a hm)

/-! ### Evaluation lemmas for the fusion fold -/

lemma fuseStep_nil (a : TaggedAircraft) (k : String)
    (ha : jsKey a.icao24 a.callsign = some k) (hk : k ≠ "") :
    fuseStep [] a = [(k, seedEntity a)] := by
  simp [fuseStep, ha, hk, mapLookup, mapSet]

lemma fuseStep_found (m : EntityMap) (a : TaggedAircraft) (k : String)
    (existing : FusedEntity)
    (ha : jsKey a.icao24 a.callsign = some k) (hk : k ≠ "")
    (hl : mapLookup m k = some existing) :
    fuseStep m a = mapSet m k (mergeEntity existing a) := by
  simp [fuseStep, ha, hk, hl]

lemma fuseStep_noKey (m : EntityMap) (a : TaggedAircraft)
    (h1 : a.icao24 = none) (h2 : a.callsign = some "") :
    fuseStep m a = m := by
  simp [fuseStep, jsKey, h1, h2, truthy]

lemma dedupStep_noKey (acc : List FusedEntity × List String) (a : FusedEntity)
    (h1 : a.icao24 = none) (h2 : a.callsign = some "") :
    dedupStep acc a = acc := by
  simp [dedupStep, jsKey, h1, h2, truthy]

/-- The upsert step of `updateCache`. -/
lemma updateCache_step_noKey (c : EntityMap) (a : FusedEntity)
    (h1 : a.icao24 = none) (h2 : a.callsign = some "") :
    (match jsKey a.icao24 a.callsign with
      | none => c
      | some s => if s = "" then c else mapSet c s a) = c := by
  simp [jsKey, h1, h2, truthy]

/-- C9 — Every fused entity carries confidence exactly 1.0: the seed is
1.0, the override branch resets to 1.0, and the corroboration step
computes `min(1.0, 1.0 + 0.1) = 1.0`, so confidence never distinguishes
corroborated from uncorroborated entities. -/
theorem fuse_confidence_always_one (l : List TaggedAircraft) :
    ∀ e ∈ fuseAircraftData l, e.confidence = num 1 := by
  intro e he
  unfold fuseAircraftData at he
  rcases List.mem_map.mp he with ⟨kv, hkv, rfl⟩
  exact fuse_fold_confidence l [] (by simp) kv hkv

theorem fuse_confidence_always_one_witness :
    (seedEntity baseReport).confidence = num 1 :=
  fuse_confidence_always_one [baseReport] (seedEntity baseReport)
    (by rw [show fuseAircraftData [baseReport] = [seedEntity baseReport] from rfl]
        exact List.mem_singleton.mpr rfl)

/-- C10 — A report with no `icao24` and an empty-string call sign has a
falsy derived key, so `fuseAircraftData` silently drops it, and
`removeDuplicates` and `updateCache` likewise ignore such an entity: an
empty-string call sign is not a fallback identifier. -/
theorem empty_callsign_report_dropped :
    (∀ (l1 l2 : List TaggedAircraft) (r : TaggedAircraft),
      r.icao24 = none → r.callsign = some "" →
      fuseAircraftData (l1 ++ r :: l2) = fuseAircraftData (l1 ++ l2)) ∧
    (∀ (l1 l2 : List FusedEntity) (e : FusedEntity),
      e.icao24 = none → e.callsign = some "" →
      removeDuplicates (l1 ++ e :: l2) = removeDuplicates (l1 ++ l2)) ∧
    (∀ (now : ℝ) (l1 l2 : List FusedEntity) (e : FusedEntity)
      (cache : EntityMap),
      e.icao24 = none → e.callsign = some "" →
      updateCache now (l1 ++ e :: l2) cache
        = updateCache now (l1 ++ l2) cache) := by
  refine ⟨?_, ?_, ?_⟩
  · intro l1 l2 r h1 h2
    unfold fuseAircraftData
    rw [List.foldl_append, List.foldl_cons, fuseStep_noKey _ r h1 h2,
      ← List.foldl_append]
  · intro l1 l2 e h1 h2
    unfold removeDuplicates
    rw [List.foldl_append, List.foldl_cons, dedupStep_noKey _ e h1 h2,
      ← List.foldl_append]
  · intro now l1 l2 e cache h1 h2
    unfold updateCache
    rw [List.foldl_append, List.foldl_cons,
      updateCache_step_noKey _ e h1 h2, ← List.foldl_append]

theorem empty_callsign_report_dropped_witness :
    fuseAircraftData ([baseReport] ++ noKeyReport :: [])
      = fuseAircraftData ([baseReport] ++ []) ∧
    removeDuplicates ([baseEntity] ++ noKeyEntity :: [])
      = removeDuplicates ([baseEntity] ++ []) ∧
    updateCache 0 ([baseEntity] ++ noKeyEntity :: []) []
      = updateCache 0 ([baseEntity] ++ []) [] :=
  ⟨empty_callsign_report_dropped.1 [baseReport] [] noKeyReport rfl rfl,
   empty_callsign_report_dropped.2.1 [baseEntity] [] noKeyEntity rfl rfl,
   empty_callsign_report_dropped.2.2 0 [baseEntity] [] noKeyEntity [] rfl rfl⟩

/-- C3 — evaluation at the failing input: a priority-1 report observed at
time 100 merged with a priority-3 report for the same key observed at
time 50 yields fused timestamp 50, not `max(100, 50) = 100`: in the
override branch `Object.assign` copies the incoming (older) timestamp
before the "most recent" comparison, which then compares the incoming
timestamp against itself. -/
theorem fuse_override_timestamp_not_max :
    (fuseAircraftData [lowReport, highReport]).map FusedEntity.timestamp
      = [num 50] ∧ lowReport.timestamp = num 100
      ∧ highReport.timestamp = num 50 := by
  refine ⟨?_, rfl, rfl⟩
  unfold fuseAircraftData
  rw [show List.foldl fuseStep [] [lowReport, highReport]
      = fuseStep (fuseStep [] lowReport) highReport from rfl,
    fuseStep_nil lowReport "AAA" rfl (by decide),
    fuseStep_found [("AAA", seedEntity lowReport)] highReport "AAA"
      (seedEntity lowReport) rfl (by decide) rfl,
    mergeEntity_override (seedEntity lowReport) highReport
      (by show jgt (num 3) (num 1); simp)]
  rfl

/-- C1 — For two same-key reports with priorities 3 and 1, in either
arrival order, the fused entity's latitude, longitude, altitude and
heading are the priority-3 report's values and its confidence is 1.0:
the later priority-3 report overrides, the later priority-1 report is
ignored. -/
theorem fuse_priority_override (a b : TaggedAircraft) (k : String)
    (hk : k ≠ "")
    (ha : jsKey a.icao24 a.callsign = some k)
    (hb : jsKey b.icao24 b.callsign = some k)
    (hpa : a.priority = num 3) (hpb : b.priority = num 1) :
    (fuseAircraftData [a, b]).map
        (fun e => (e.latitude, e.longitude, e.altitude, e.heading,
          e.confidence))
      = [(a.latitude, a.longitude, a.altitude, a.heading, num 1)] ∧
    (fuseAircraftData [b, a]).map
        (fun e => (e.latitude, e.longitude, e.altitude, e.heading,
          e.confidence))
      = [(a.latitude, a.longitude, a.altitude, a.heading, num 1)] := by
  constructor
  · have hg : ¬ jgt b.priority (seedEntity a).priority := by
      simp only [seedEntity]
      rw [hpa, hpb]
      simp only [jgt_num_num]
      norm_num
    have he : ¬ jeqNum b.priority (seedEntity a).priority := by
      simp only [seedEntity]
      rw [hpa, hpb]
      simp only [jeqNum_num_num]
      norm_num
    unfold fuseAircraftData
    rw [show List.foldl fuseStep [] [a, b]
          = fuseStep (fuseStep [] a) b from rfl,
      fuseStep_nil a k ha hk,
      fuseStep_found [(k, seedEntity a)] b k (seedEntity a) hb hk
        (by simp [mapLookup]),
      mergeEntity_ignore (seedEntity a) b hg he]
    by_cases hc : jgt b.timestamp (seedEntity a).timestamp
    · rw [if_pos hc]; simp [mapSet, seedEntity]
    · rw [if_neg hc]; simp [mapSet, seedEntity]
  · have hg : jgt a.priority (seedEntity b).priority := by
      simp only [seedEntity]
      rw [hpa, hpb]
      simp only [jgt_num_num]
      norm_num
    unfold fuseAircraftData
    rw [show List.foldl fuseStep [] [b, a]
          = fuseStep (fuseStep [] b) a from rfl,
      fuseStep_nil b k hb hk,
      fuseStep_found [(k, seedEntity b)] a k (seedEntity b) ha hk
        (by simp [mapLookup]),
      mergeEntity_override (seedEntity b) a hg]
    simp [mapSet]

theorem fuse_priority_override_witness :
    (fuseAircraftData [ovHigh, ovLow]).map
        (fun e => (e.latitude, e.longitude, e.altitude, e.heading,
          e.confidence))
      = [(num 31, num 41, num 2000, num 180, num 1)] ∧
    (fuseAircraftData [ovLow, ovHigh]).map
        (fun e => (e.latitude, e.longitude, e.altitude, e.heading,
          e.confidence))
      = [(num 31, num 41, num 2000, num 180, num 1)] :=
  fuse_priority_override ovHigh ovLow "AAA" (by decide) rfl rfl rfl rfl

/-- C2 — For two same-key reports of equal priority, the fused entity's
latitude, longitude, altitude, velocity and heading are the arithmetic
means of the two reports' values, and confidence becomes
`min(1.0, 1.0 + 0.1)` (the 0.1 increment, capped at 1.0). -/
theorem fuse_equal_priority_average (a b : TaggedAircraft) (k : String)
    (p la lb lo1 lo2 al1 al2 v1 v2 hd1 hd2 : ℝ)
    (hk : k ≠ "")
    (ha : jsKey a.icao24 a.callsign = some k)
    (hb : jsKey b.icao24 b.callsign = some k)
    (hpa : a.priority = num p) (hpb : b.priority = num p)
    (hla : a.latitude = num la) (hlb : b.latitude = num lb)
    (hlo1 : a.longitude = num lo1) (hlo2 : b.longitude = num lo2)
    (hal1 : a.altitude = num al1) (hal2 : b.altitude = num al2)
    (hv1 : a.velocity = num v1) (hv2 : b.velocity = num v2)
    (hhd1 : a.heading = num hd1) (hhd2 : b.heading = num hd2) :
    (fuseAircraftData [a, b]).map
        (fun e => (e.latitude, e.longitude, e.altitude, e.velocity,
          e.heading, e.confidence))
      = [(num ((la + lb) / 2), num ((lo1 + lo2) / 2), num ((al1 + al2) / 2),
          num ((v1 + v2) / 2), num ((hd1 + hd2) / 2),
          num (min 1 (1 + 0.1)))] := by
  have hg : ¬ jgt b.priority (seedEntity a).priority := by
    simp only [seedEntity]
    rw [hpa, hpb]
    simp only [jgt_num_num]
    norm_num
  have he : jeqNum b.priority (seedEntity a).priority := by
    simp only [seedEntity]
    rw [hpa, hpb]
    simp only [jeqNum_num_num]
  unfold fuseAircraftData
  rw [show List.foldl fuseStep [] [a, b]
        = fuseStep (fuseStep [] a) b from rfl,
    fuseStep_nil a k ha hk,
    fuseStep_found [(k, seedEntity a)] b k (seedEntity a) hb hk
      (by simp [mapLookup]),
    mergeEntity_average (seedEntity a) b hg he]
  have hfields :
      (seedEntity a).latitude = num la ∧ (seedEntity a).longitude = num lo1
      ∧ (seedEntity a).altitude = num al1 ∧ (seedEntity a).velocity = num v1
      ∧ (seedEntity a).heading = num hd1
      ∧ (seedEntity a).confidence = num 1 :=
    ⟨hla, hlo1, hal1, hv1, hhd1, rfl⟩
  obtain ⟨f1, f2, f3, f4, f5, f6⟩ := hfields
  by_cases hc : jgt b.timestamp (seedEntity a).timestamp
  · rw [if_pos hc]
    simp only [mapSet, if_pos rfl, List.map_cons, List.map_nil]
    simp [f1, f2, f3, f4, f5, f6, hlb, hlo2, hal2, hv2, hhd2,
      div_eq_mul_inv]
  · rw [if_neg hc]
    simp only [mapSet, if_pos rfl, List.map_cons, List.map_nil]
    simp [f1, f2, f3, f4, f5, f6, hlb, hlo2, hal2, hv2, hhd2,
      div_eq_mul_inv]

theorem fuse_equal_priority_average_witness :
    (fuseAircraftData [avgA, avgB]).map
        (fun e => (e.latitude, e.longitude, e.altitude, e.velocity,
          e.heading, e.confidence))
      = [(num 10, num 20.1, num 1000, num 100, num 90, num 1)] := by
  have h := fuse_equal_priority_average avgA avgB "AAA"
    2 10 10 20 20.2 1000 1000 100 100 90 90
    (by decide) rfl rfl rfl rfl rfl rfl rfl rfl rfl rfl rfl rfl rfl rfl
  rw [h]
  norm_num

/-- C4 — If a processing cycle reports an error, the cache mapping is
returned exactly as it was: the only failure point (a malformed snapshot
shape thrown during flattening) is caught before `updateCache` runs, and
fusion, dedup and the cache update itself are total, so a failed cycle
never sweeps, inserts or partially updates an entry. -/
theorem process_error_preserves_cache :
    (∀ (now : ℝ) (data : Snapshot) (cache : EntityMap) (msg : String),
      (processAircraftData now data cache).1 = ProcOutcome.error msg →
      (processAircraftData now data cache).2 = cache) ∧
    (∀ (now : ℝ) (data : Snapshot) (cache : EntityMap),
      data.localData = SourceSlot.malformed
        ∨ data.openSky = SourceSlot.malformed
        ∨ data.flightradar = SourceSlot.malformed →
      ∃ msg, (processAircraftData now data cache).1 = ProcOutcome.error msg
        ∧ (processAircraftData now data cache).2 = cache) := by
  constructor
  · intro now data cache msg h
    unfold processAircraftData at h ⊢
    cases hf : flattenSnapshot data with
    | error e => rfl
    | ok l => rw [hf] at h; exact absurd h (by simp)
  · intro now data cache h
    have hf : ∃ msg, flattenSnapshot data = Except.error msg := by
      unfold flattenSnapshot
      rcases h with h | h | h
      · rw [h]; exact ⟨_, rfl⟩
      · cases hcl : data.localData <;> rw [h] <;> exact ⟨_, rfl⟩
      · cases hcl : data.localData <;> cases hos : data.openSky <;>
          rw [h] <;> exact ⟨_, rfl⟩
    obtain ⟨msg, hf⟩ := hf
    refine ⟨msg, ?_, ?_⟩ <;> unfold processAircraftData <;> rw [hf]

theorem process_error_preserves_cache_witness :
    (processAircraftData 0 badSnapshot demoCache).2 = demoCache ∧
    ∃ msg, (processAircraftData 0 badSnapshot demoCache).1
        = ProcOutcome.error msg
      ∧ (processAircraftData 0 badSnapshot demoCache).2 = demoCache :=
  ⟨process_error_preserves_cache.1 0 badSnapshot demoCache
      "aircraft.forEach is not a function" rfl,
    process_error_preserves_cache.2 0 badSnapshot demoCache (Or.inl rfl)⟩

/-- C8 — A snapshot in which every source slot is absent, has no truthy
`aircraft` field, or carries an empty list produces a successful cycle
with an empty entity list and `processedCount = 0`. -/
theorem process_empty_snapshot (now : ℝ) (data : Snapshot)
    (cache : EntityMap)
    (h1 : data.localData = SourceSlot.absent
      ∨ data.localData = SourceSlot.noList
      ∨ data.localData = SourceSlot.list [])
    (h2 : data.openSky = SourceSlot.absent
      ∨ data.openSky = SourceSlot.noList
      ∨ data.openSky = SourceSlot.list [])
    (h3 : data.flightradar = SourceSlot.absent
      ∨ data.flightradar = SourceSlot.noList
      ∨ data.flightradar = SourceSlot.list []) :
    (processAircraftData now data cache).1
      = ProcOutcome.ok [] 0 (updateCache now [] cache).length := by
  have e1 : flattenSlot data.localData "local" 3 = .ok [] := by
    rcases h1 with h | h | h <;> rw [h] <;> rfl
  have e2 : flattenSlot data.openSky "opensky" 2 = .ok [] := by
    rcases h2 with h | h | h <;> rw [h] <;> rfl
  have e3 : flattenSlot data.flightradar "flightradar24" 1 = .ok [] := by
    rcases h3 with h | h | h <;> rw [h] <;> rfl
  have hf : flattenSnapshot data = .ok [] := by
    unfold flattenSnapshot
    rw [e1, e2, e3]
    rfl
  unfold processAircraftData
  rw [hf]
  rfl

theorem process_empty_snapshot_witness :
    (processAircraftData 100000 emptySnapshot demoCache).1
      = ProcOutcome.ok [] 0 (updateCache 100000 [] demoCache).length :=
  process_empty_snapshot 100000 emptySnapshot demoCache
    (Or.inl rfl) (Or.inr (Or.inl rfl)) (Or.inr (Or.inr rfl))

/-! ### Cache lookup lemmas -/

lemma mapLookup_eq_none_of_not_mem (m : EntityMap) (k : String)
    (h : k ∉ m.map Prod.fst) : mapLookup m k = none := by
  induction m with
  | nil => rfl
  | cons kv rest ih =>
      simp only [List.map_cons, List.mem_cons] at h
      push_neg at h
      simp only [mapLookup]
      rw [if_neg (fun hc => h.1 hc.symm)]
      exact ih h.2

lemma sweepCache_not_mem (now : ℝ) (m : EntityMap) (k : String)
    (h : k ∉ m.map Prod.fst) : k ∉ (sweepCache now m).map Prod.fst := by
  induction m with
  | nil => simp [sweepCache]
  | cons kv rest ih =>
      simp only [List.map_cons, List.mem_cons] at h
      push_neg at h
      unfold sweepCache
      by_cases hc : jgt (jsub (num now) kv.2.timestamp) (num 30000)
      · rw [if_pos hc]; exact ih h.2
      · rw [if_neg hc]
        simp only [List.map_cons, List.mem_cons]
        push_neg
        exact ⟨h.1, ih h.2⟩

lemma mapLookup_sweepCache_expired (now : ℝ) (m : EntityMap) (k : String)
    (e : FusedEntity) (hnd : (m.map Prod.fst).Nodup)
    (hl : mapLookup m k = some e)
    (hexp : jgt (jsub (num now) e.timestamp) (num 30000)) :
    mapLookup (sweepCache now m) k = none := by
  induction m with
  | nil => simp [mapLookup] at hl
  | cons kv rest ih =>
      simp only [List.map_cons, List.nodup_cons] at hnd
      by_cases hk : kv.1 = k
      · simp only [mapLookup, hk, if_pos rfl] at hl
        have he : kv.2 = e := Option.some.inj hl
        unfold sweepCache
        rw [if_pos (he ▸ hexp)]
        refine mapLookup_eq_none_of_not_mem _ _ ?_
        exact sweepCache_not_mem now rest k (hk ▸ hnd.1)
      · simp only [mapLookup, hk, if_neg hk] at hl
        unfold sweepCache
        by_cases hc : jgt (jsub (num now) kv.2.timestamp) (num 30000)
        · rw [if_pos hc]; exact ih hnd.2 hl
        · rw [if_neg hc]
          simp only [mapLookup, if_neg hk]
          exact ih hnd.2 hl

lemma mapLookup_sweepCache_fresh (now : ℝ) (m : EntityMap) (k : String)
    (e : FusedEntity) (hl : mapLookup m k = some e)
    (hexp : ¬ jgt (jsub (num now) e.timestamp) (num 30000)) :
    mapLookup (sweepCache now m) k = some e := by
  induction m with
  | nil => simp [mapLookup] at hl
  | cons kv rest ih =>
      by_cases hk : kv.1 = k
      · have he : kv.2 = e := by simpa [mapLookup, hk] using hl
        unfold sweepCache
        rw [if_neg (he ▸ hexp)]
        simp [mapLookup, hk, he]
      · simp only [mapLookup, if_neg hk] at hl
        unfold sweepCache
        by_cases hc : jgt (jsub (num now) kv.2.timestamp) (num 30000)
        · rw [if_pos hc]; exact ih hl
        · rw [if_neg hc]
          simp only [mapLookup, if_neg hk]
          exact ih hl

lemma upsert_lookup_not_mem (batch : List FusedEntity) (c : EntityMap)
    (k : String)
    (hb : ∀ b ∈ batch, jsKey b.icao24 b.callsign ≠ some k) :
    mapLookup
      (batch.foldl
        (fun c a =>
          match jsKey a.icao24 a.callsign with
          | none => c
          | some s => if s = "" then c else mapSet c s a)
        c) k
      = mapLookup c k := by
  induction batch generalizing c with
  | nil => rfl
  | cons b rest ih =>
      rw [List.foldl_cons]
      have step : (match jsKey b.icao24 b.callsign with
          | none => c
          | some s => if s = "" then c else mapSet c s b) = c
          ∨ ∃ s, s ≠ k ∧ (match jsKey b.icao24 b.callsign with
          | none => c
          | some s => if s = "" then c else mapSet c s b) = mapSet c s b := by
        cases hkey : jsKey b.icao24 b.callsign with
        | none => exact Or.inl rfl
        | some s =>
            by_cases hs : s = ""
            · exact Or.inl (by simp [hs])
            · refine Or.inr ⟨s, ?_, by simp [hs]⟩
              intro hsk
              exact hb b (List.mem_cons_self _ _) (hsk ▸ hkey)
      rcases step with hstep | ⟨s, hsk, hstep⟩
      · rw [hstep]
        exact ih c (fun x hx => hb x (List.mem_cons_of_mem _ hx))
      · rw [hstep, ih (mapSet c s b) (fun x hx => hb x (List.mem_cons_of_mem _ hx))]
        exact mapLookup_mapSet_ne c s k b hsk

lemma upsert_lookup_preserved (batch : List FusedEntity) (c : EntityMap)
    (k : String) (b : FusedEntity)
    (hc : mapLookup c k = some b)
    (hall : ∀ b' ∈ batch, jsKey b'.icao24 b'.callsign = some k → b' = b) :
    mapLookup
      (batch.foldl
        (fun c a =>
          match jsKey a.icao24 a.callsign with
          | none => c
          | some s => if s = "" then c else mapSet c s a)
        c) k
      = some b := by
  induction batch generalizing c with
  | nil => exact hc
  | cons b0 rest ih =>
      rw [List.foldl_cons]
      have htail : ∀ b' ∈ rest, jsKey b'.icao24 b'.callsign = some k → b' = b :=
        fun x hx => hall x (List.mem_cons_of_mem _ hx)
      cases hkey : jsKey b0.icao24 b0.callsign with
      | none => exact ih c hc htail
      | some s =>
          by_cases hs : s = ""
          · simp only [hs, if_pos rfl]
            exact ih c hc htail
          · simp only [if_neg hs]
            by_cases hsk : s = k
            · have hb0 : b0 = b := hall b0 (List.mem_cons_self _ _) (hsk ▸ hkey)
              subst hsk hb0
              exact ih _ (mapLookup_mapSet_self c s b0) htail
            · exact ih _ ((mapLookup_mapSet_ne c s k b0 hsk).trans hc) htail

lemma upsert_lookup_unique (batch : List FusedEntity) (c : EntityMap)
    (k : String) (b : FusedEntity)
    (hmem : b ∈ batch) (hkey : jsKey b.icao24 b.callsign = some k)
    (hk : k ≠ "")
    (huniq : ∀ b' ∈ batch, jsKey b'.icao24 b'.callsign = some k → b' = b) :
    mapLookup
      (batch.foldl
        (fun c a =>
          match jsKey a.icao24 a.callsign with
          | none => c
          | some s => if s = "" then c else mapSet c s a)
        c) k
      = some b := by
  induction batch generalizing c with
  | nil => simp at hmem
  | cons b0 rest ih =>
      rw [List.foldl_cons]
      have htail : ∀ b' ∈ rest, jsKey b'.icao24 b'.callsign = some k → b' = b :=
        fun x hx => huniq x (List.mem_cons_of_mem _ hx)
      by_cases hb0 : jsKey b0.icao24 b0.callsign = some k
      · have : b0 = b := huniq b0 (List.mem_cons_self _ _) hb0
        subst this
        rw [hkey]
        simp only [if_neg hk]
        exact upsert_lookup_preserved rest _ k b0
          (mapLookup_mapSet_self c k b0) htail
      · have hbrest : b ∈ rest := by
          rcases List.mem_cons.mp hmem with h | h
          · exact absurd (h ▸ hkey) hb0
          · exact h
        cases hkey0 : jsKey b0.icao24 b0.callsign with
        | none => exact ih c hbrest htail
        | some s =>
            by_cases hs : s = ""
            · simp only [hs, if_pos rfl]
              exact ih c hbrest htail
            · simp only [if_neg hs]
              exact ih _ hbrest htail

/-- C6 — `updateCache` sweeps first and inserts afterwards: for a key not
refreshed by the current batch, the entry disappears exactly when
`now - observedAt > 30000` (31000 ms old ⇒ absent, 29000 ms old ⇒
still present); and a key carried by the batch maps afterwards to that
batch entity, replaced whole. -/
theorem updateCache_sweep_then_upsert :
    (∀ (now : ℝ) (batch : List FusedEntity) (cache : EntityMap) (k : String)
      (e : FusedEntity), (cache.map Prod.fst).Nodup →
      mapLookup cache k = some e →
      jgt (jsub (num now) e.timestamp) (num 30000) →
      (∀ b ∈ batch, jsKey b.icao24 b.callsign ≠ some k) →
      mapLookup (updateCache now batch cache) k = none) ∧
    (∀ (now : ℝ) (batch : List FusedEntity) (cache : EntityMap) (k : String)
      (e : FusedEntity),
      mapLookup cache k = some e →
      ¬ jgt (jsub (num now) e.timestamp) (num 30000) →
      (∀ b ∈ batch, jsKey b.icao24 b.callsign ≠ some k) →
      mapLookup (updateCache now batch cache) k = some e) ∧
    (∀ (now : ℝ) (batch : List FusedEntity) (cache : EntityMap) (k : String)
      (b : FusedEntity),
      b ∈ batch → jsKey b.icao24 b.callsign = some k → k ≠ "" →
      (∀ b' ∈ batch, jsKey b'.icao24 b'.callsign = some k → b' = b) →
      mapLookup (updateCache now batch cache) k = some b) := by
  refine ⟨?_, ?_, ?_⟩
  · intro now batch cache k e hnd hl hexp hb
    unfold updateCache
    rw [upsert_lookup_not_mem batch _ k hb]
    exact mapLookup_sweepCache_expired now cache k e hnd hl hexp
  · intro now batch cache k e hl hexp hb
    unfold updateCache
    rw [upsert_lookup_not_mem batch _ k hb]
    exact mapLookup_sweepCache_fresh now cache k e hl hexp
  · intro now batch cache k b hmem hkey hk huniq
    unfold updateCache
    exact upsert_lookup_unique batch _ k b hmem hkey hk huniq

theorem updateCache_sweep_then_upsert_witness :
    mapLookup (updateCache 100000 [newEntity] demoCache) "OLD" = none ∧
    mapLookup (updateCache 100000 [newEntity] demoCache) "FRESH"
      = some freshEntity ∧
    mapLookup (updateCache 100000 [newEntity] demoCache) "NEW"
      = some newEntity := by
  have hnd : (demoCache.map Prod.fst).Nodup := by
    rw [show demoCache.map Prod.fst = ["OLD", "FRESH"] from rfl]
    decide
  have hold : ∀ b ∈ [newEntity],
      jsKey b.icao24 b.callsign ≠ some "OLD" := by
    intro b hb
    rw [List.mem_singleton.mp hb]
    decide
  have hfresh : ∀ b ∈ [newEntity],
      jsKey b.icao24 b.callsign ≠ some "FRESH" := by
    intro b hb
    rw [List.mem_singleton.mp hb]
    decide
  refine ⟨?_, ?_, ?_⟩
  · refine updateCache_sweep_then_upsert.1 100000 [newEntity] demoCache
      "OLD" oldEntity hnd rfl ?_ hold
    show jgt (jsub (num 100000) (num 69000)) (num 30000)
    simp only [jsub_num_num, jgt_num_num]
    norm_num
  · refine updateCache_sweep_then_upsert.2.1 100000 [newEntity] demoCache
      "FRESH" freshEntity rfl ?_ hfresh
    show ¬ jgt (jsub (num 100000) (num 71000)) (num 30000)
    simp only [jsub_num_num, jgt_num_num]
    norm_num
  · refine updateCache_sweep_then_upsert.2.2 100000 [newEntity] demoCache
      "NEW" newEntity (List.mem_singleton.mpr rfl) rfl (by decide) ?_
    intro b hb _
    exact List.mem_singleton.mp hb

/-! ### NaN propagation through the distance computation -/

@[simp] lemma jsSin_nan : jsSin nan = nan := rfl
@[simp] lemma jsCos_nan : jsCos nan = nan := rfl
@[simp] lemma jsSqrt_nan : jsSqrt nan = nan := rfl
@[simp] lemma jsAtan2_nan_left (x : JsNum) : jsAtan2 nan x = nan := by
  cases x <;> rfl
@[simp] lemma jsAtan2_nan_right (y : JsNum) : jsAtan2 y nan = nan := by
  cases y <;> rfl

lemma calculateDistance_nan_candidate (lat1 lon1 lat2 lon2 : JsNum)
    (h : lat2 = nan ∨ lon2 = nan) :
    calculateDistance lat1 lon1 lat2 lon2 = nan := by
  rcases h with h | h <;> subst h <;> simp [calculateDistance]

lemma dedupStep_nan_accepted (acc : List FusedEntity × List String)
    (c : FusedEntity) (s : String)
    (hnan : c.latitude = nan ∨ c.longitude = nan)
    (hkey : jsKey c.icao24 c.callsign = some s) (hs : s ≠ "")
    (hfresh : s ∉ acc.2) :
    dedupStep acc c = (acc.1 ++ [c], acc.2 ++ [s]) := by
  simp only [dedupStep, hkey]
  rw [if_neg hs, if_neg hfresh, if_neg ?_]
  rintro ⟨e, _, hlt⟩
  rw [calculateDistance_nan_candidate e.latitude e.longitude c.latitude
    c.longitude hnan] at hlt
  exact jlt_nan_left (num 1) hlt

/-- C7 — A candidate whose latitude or longitude is NaN is never discarded
as a proximity duplicate: the haversine distance computed from a NaN
coordinate is NaN, the strict comparison `distance < 1.0` is false on
NaN, so `removeDuplicates` accepts such a candidate whenever its key is
fresh. -/
theorem nan_candidate_never_proximity_duplicate :
    (∀ lat1 lon1 lat2 lon2 : JsNum, lat2 = nan ∨ lon2 = nan →
      calculateDistance lat1 lon1 lat2 lon2 = nan) ∧
    (¬ jlt nan (num 1)) ∧
    (∀ (acc : List FusedEntity × List String) (c : FusedEntity) (s : String),
      c.latitude = nan ∨ c.longitude = nan →
      jsKey c.icao24 c.callsign = some s → s ≠ "" → s ∉ acc.2 →
      dedupStep acc c = (acc.1 ++ [c], acc.2 ++ [s])) ∧
    (∀ (l : List FusedEntity) (c : FusedEntity) (s : String),
      c.latitude = nan ∨ c.longitude = nan →
      jsKey c.icao24 c.callsign = some s → s ≠ "" →
      s ∉ (l.foldl dedupStep ([], [])).2 →
      removeDuplicates (l ++ [c]) = removeDuplicates l ++ [c]) := by
  refine ⟨calculateDistance_nan_candidate, jlt_nan_left (num 1),
    dedupStep_nan_accepted, ?_⟩
  intro l c s hnan hkey hs hfresh
  unfold removeDuplicates
  rw [List.foldl_append, List.foldl_cons, List.foldl_nil,
    dedupStep_nan_accepted _ c s hnan hkey hs hfresh]

theorem nan_candidate_never_proximity_duplicate_witness :
    removeDuplicates ([baseEntity] ++ [nanEntity])
      = removeDuplicates [baseEntity] ++ [nanEntity] :=
  nan_candidate_never_proximity_duplicate.2.2.2 [baseEntity] nanEntity "NNN"
    (Or.inl rfl) rfl (by decide)
    (by rw [show ([baseEntity].foldl dedupStep ([], [])).2 = ["AAA"] from rfl]
        decide)

/-! ### Evaluation lemmas for the distance computation -/

@[simp] lemma jsSin_num (x : ℝ) : jsSin (num x) = num (Real.sin x) := rfl
@[simp] lemma jsCos_num (x : ℝ) : jsCos (num x) = num (Real.cos x) := rfl
@[simp] lemma jsAtan2_num (y x : ℝ) :
    jsAtan2 (num y) (num x) = num (atan2R y x) := rfl
lemma jdiv_num_180 (x : ℝ) : jdiv (num x) (num 180) = num (x / 180) :=
  jdiv_num_num x 180 (by norm_num)
lemma jdiv_num_2 (x : ℝ) : jdiv (num x) (num 2) = num (x / 2) :=
  jdiv_num_num x 2 (by norm_num)
lemma jsSqrt_num_nonneg (x : ℝ) (h : 0 ≤ x) :
    jsSqrt (num x) = num (Real.sqrt x) := by
  simp [jsSqrt, not_lt.mpr h]

/-- On a common meridian (equal longitudes) the haversine collapses to the
arc along the meridian: the distance is `6371 · dLat` with `dLat` the
latitude difference in radians, provided `dLat/2` lies in `[0, π/2)`. -/
lemma calculateDistance_same_lon (l1 l2 lon : ℝ)
    (h0 : 0 ≤ (l2 - l1) * Real.pi / 180)
    (hlt : (l2 - l1) * Real.pi / 180 < Real.pi) :
    calculateDistance (num l1) (num lon) (num l2) (num lon)
      = num (6371 * ((l2 - l1) * Real.pi / 180)) := by
  have hpi := Real.pi_pos
  have hθ0 : 0 ≤ (l2 - l1) * Real.pi / 180 / 2 := by linarith
  have hθ2 : (l2 - l1) * Real.pi / 180 / 2 < Real.pi / 2 := by linarith
  have hθpi : (l2 - l1) * Real.pi / 180 / 2 ≤ Real.pi := by linarith
  have hθneg : -(Real.pi / 2) < (l2 - l1) * Real.pi / 180 / 2 := by linarith
  have hsin0 : 0 ≤ Real.sin ((l2 - l1) * Real.pi / 180 / 2) :=
    Real.sin_nonneg_of_nonneg_of_le_pi hθ0 hθpi
  have hcospos : 0 < Real.cos ((l2 - l1) * Real.pi / 180 / 2) :=
    Real.cos_pos_of_mem_Ioo (Set.mem_Ioo.mpr ⟨hθneg, hθ2⟩)
  unfold calculateDistance
  simp only [jsub_num_num, jmul_num_num, jdiv_num_180, jdiv_num_2,
    jsSin_num, jsCos_num, jadd_num_num]
  rw [show Real.sin ((l2 - l1) * Real.pi / 180 / 2)
        * Real.sin ((l2 - l1) * Real.pi / 180 / 2)
        + Real.cos (l1 * Real.pi / 180) * Real.cos (l2 * Real.pi / 180)
          * (Real.sin ((lon - lon) * Real.pi / 180 / 2)
            * Real.sin ((lon - lon) * Real.pi / 180 / 2))
      = Real.sin ((l2 - l1) * Real.pi / 180 / 2)
        * Real.sin ((l2 - l1) * Real.pi / 180 / 2) from by
    rw [show (lon - lon) * Real.pi / 180 / 2 = 0 from by ring, Real.sin_zero]
    ring]
  rw [jsSqrt_num_nonneg _ (mul_self_nonneg _), Real.sqrt_mul_self hsin0]
  rw [show (1 : ℝ) - Real.sin ((l2 - l1) * Real.pi / 180 / 2)
        * Real.sin ((l2 - l1) * Real.pi / 180 / 2)
      = Real.cos ((l2 - l1) * Real.pi / 180 / 2)
        * Real.cos ((l2 - l1) * Real.pi / 180 / 2) from by
    nlinarith [Real.sin_sq_add_cos_sq ((l2 - l1) * Real.pi / 180 / 2)]]
  rw [jsSqrt_num_nonneg _ (mul_self_nonneg _), Real.sqrt_mul_self hcospos.le]
  rw [jsAtan2_num,
    show atan2R (Real.sin ((l2 - l1) * Real.pi / 180 / 2))
        (Real.cos ((l2 - l1) * Real.pi / 180 / 2))
      = (l2 - l1) * Real.pi / 180 / 2 from by
    unfold atan2R
    rw [if_pos hcospos, ← Real.tan_eq_sin_div_cos,
      Real.arctan_tan hθneg hθ2]]
  rw [jmul_num_num, jmul_num_num]
  exact congrArg num (by ring)

/-! ### The dedup fold against the spec's decision procedure -/

lemma dedup_fold_matches_spec (l : List FusedEntity)
    (acc : List FusedEntity) (keys : List String)
    (hall : ∀ a ∈ l, truthy (jsKey a.icao24 a.callsign) = true)
    (hinv : ∀ s : String, s ∈ keys ↔
      ∃ e ∈ acc, jsKey e.icao24 e.callsign = some s) :
    (l.foldl dedupStep (acc, keys)).1 = l.foldl dedupeSpecStep acc := by
  induction l generalizing acc keys with
  | nil => rfl
  | cons a rest ih =>
      obtain ⟨s, hks, hs⟩ :
          ∃ s, jsKey a.icao24 a.callsign = some s ∧ s ≠ "" := by
        have h := hall a (List.mem_cons_self _ _)
        cases hk : jsKey a.icao24 a.callsign with
        | none => rw [hk] at h; exact absurd h (by simp [truthy])
        | some t =>
            rw [hk] at h
            refine ⟨t, rfl, ?_⟩
            simpa [truthy] using h
      have htail : ∀ x ∈ rest, truthy (jsKey x.icao24 x.callsign) = true :=
        fun x hx => hall x (List.mem_cons_of_mem _ hx)
      rw [List.foldl_cons, List.foldl_cons]
      by_cases hmem : s ∈ keys
      · have hstep : dedupStep (acc, keys) a = (acc, keys) := by
          simp only [dedupStep, hks]
          rw [if_neg hs, if_pos hmem]
        have hspec : dedupeSpecStep acc a = acc := by
          obtain ⟨e, he, heq⟩ := (hinv s).mp hmem
          unfold dedupeSpecStep
          rw [if_pos ⟨e, he, heq.trans hks.symm⟩]
        rw [hstep, hspec]
        exact ih acc keys htail hinv
      · have hspec1 : ¬ ∃ e ∈ acc,
            jsKey e.icao24 e.callsign = jsKey a.icao24 a.callsign := by
          rintro ⟨e, he, heq⟩
          exact hmem ((hinv s).mpr ⟨e, he, heq.trans hks⟩)
        by_cases hprox : ∃ e ∈ acc,
            jlt (calculateDistance e.latitude e.longitude a.latitude
              a.longitude) (num 1)
        · have hstep : dedupStep (acc, keys) a = (acc, keys) := by
            simp only [dedupStep, hks]
            rw [if_neg hs, if_neg hmem, if_pos hprox]
          have hspec : dedupeSpecStep acc a = acc := by
            unfold dedupeSpecStep
            rw [if_neg hspec1, if_pos hprox]
          rw [hstep, hspec]
          exact ih acc keys htail hinv
        · have hstep : dedupStep (acc, keys) a
              = (acc ++ [a], keys ++ [s]) := by
            simp only [dedupStep, hks]
            rw [if_neg hs, if_neg hmem, if_neg hprox]
          have hspec : dedupeSpecStep acc a = acc ++ [a] := by
            unfold dedupeSpecStep
            rw [if_neg hspec1, if_neg hprox]
          rw [hstep, hspec]
          refine ih (acc ++ [a]) (keys ++ [s]) htail ?_
          intro t
          constructor
          · intro ht
            rcases List.mem_append.mp ht with ht | ht
            · obtain ⟨e, he, heq⟩ := (hinv t).mp ht
              exact ⟨e, List.mem_append_left _ he, heq⟩
            · have hts : t = s := List.mem_singleton.mp ht
              subst hts
              exact ⟨a, List.mem_append_right _ (List.mem_singleton.mpr rfl),
                hks⟩
          · rintro ⟨e, he, heq⟩
            rcases List.mem_append.mp he with he' | he'
            · exact List.mem_append_left _ ((hinv t).mpr ⟨e, he', heq⟩)
            · have hea : e = a := List.mem_singleton.mp he'
              subst hea
              rw [hks] at heq
              exact List.mem_append_right _
                (List.mem_singleton.mpr (Option.some.inj heq).symm)

/-- C5 — On inputs whose keys are all truthy, `removeDuplicates` computes
exactly the spec's decision procedure: iterate in input order, skip a
candidate whose key was already accepted, discard it when its haversine
distance to some already-accepted entity is strictly below 1.0 km
(earliest accepted wins, nothing merged), accept otherwise.  Two
distinct-key entities 0.0001° of latitude apart collapse to the first by
input order; two entities about 2 km apart are both retained. -/
theorem removeDuplicates_matches_spec :
    (∀ l : List FusedEntity,
      (∀ a ∈ l, truthy (jsKey a.icao24 a.callsign) = true) →
      removeDuplicates l = dedupeSpec l) ∧
    removeDuplicates [baseEntity, nearEntity] = [baseEntity] ∧
    removeDuplicates [baseEntity, farEntity] = [baseEntity, farEntity] := by
  have hs1 : ¬ (("BBB" : String) = "") := by decide
  have hs2 : ("BBB" : String) ∉ (["AAA"] : List String) := by decide
  have hs3 : ¬ (("DDD" : String) = "") := by decide
  have hs4 : ("DDD" : String) ∉ (["AAA"] : List String) := by decide
  have h1 : dedupStep ([], []) baseEntity = ([baseEntity], ["AAA"]) := rfl
  refine ⟨?_, ?_, ?_⟩
  · intro l hall
    unfold removeDuplicates dedupeSpec
    exact dedup_fold_matches_spec l [] [] hall (by simp)
  · have hd : calculateDistance baseEntity.latitude baseEntity.longitude
        nearEntity.latitude nearEntity.longitude
        = num (6371 * ((10.0001 - 10) * Real.pi / 180)) :=
      calculateDistance_same_lon 10 10.0001 20
        (by nlinarith [Real.pi_pos]) (by nlinarith [Real.pi_pos])
    have hprox : ∃ e ∈ [baseEntity],
        jlt (calculateDistance e.latitude e.longitude nearEntity.latitude
          nearEntity.longitude) (num 1) := by
      refine ⟨baseEntity, List.mem_singleton.mpr rfl, ?_⟩
      rw [hd]
      simp only [jlt_num_num]
      nlinarith [Real.pi_lt_d2, Real.pi_pos]
    have h2 : dedupStep ([baseEntity], ["AAA"]) nearEntity
        = ([baseEntity], ["AAA"]) := by
      have hkey : jsKey nearEntity.icao24 nearEntity.callsign
          = some "BBB" := rfl
      simp only [dedupStep, hkey]
      rw [if_neg hs1, if_neg hs2, if_pos hprox]
    unfold removeDuplicates
    rw [show List.foldl dedupStep ([], []) [baseEntity, nearEntity]
        = dedupStep (dedupStep ([], []) baseEntity) nearEntity from rfl,
      h1, h2]
  · have hdf : calculateDistance baseEntity.latitude baseEntity.longitude
        farEntity.latitude farEntity.longitude
        = num (6371 * ((10.018 - 10) * Real.pi / 180)) :=
      calculateDistance_same_lon 10 10.018 20
        (by nlinarith [Real.pi_pos]) (by nlinarith [Real.pi_pos])
    have hnprox : ¬ ∃ e ∈ [baseEntity],
        jlt (calculateDistance e.latitude e.longitude farEntity.latitude
          farEntity.longitude) (num 1) := by
      rintro ⟨e, he, hlt2⟩
      have hee : e = baseEntity := List.mem_singleton.mp he
      subst hee
      rw [hdf] at hlt2
      simp only [jlt_num_num] at hlt2
      nlinarith [Real.pi_gt_three]
    have h3 : dedupStep ([baseEntity], ["AAA"]) farEntity
        = ([baseEntity] ++ [farEntity], ["AAA"] ++ ["DDD"]) := by
      have hkey : jsKey farEntity.icao24 farEntity.callsign
          = some "DDD" := rfl
      simp only [dedupStep, hkey]
      rw [if_neg hs3, if_neg hs4, if_neg hnprox]
    unfold removeDuplicates
    rw [show List.foldl dedupStep ([], []) [baseEntity, farEntity]
        = dedupStep (dedupStep ([], []) baseEntity) farEntity from rfl,
      h1, h3]
    rfl

theorem removeDuplicates_matches_spec_witness :
    removeDuplicates [baseEntity] = dedupeSpec [baseEntity] :=
  removeDuplicates_matches_spec.1 [baseEntity] (by decide)
